import Mathlib

/-!
Shallow embedding of the Session Orchestration & Runtime Governance Engine's
cost-governance circuit breaker (src/server/services/costMonitor.ts) and of the
dashboard handlers (src/client/src/pages/professional-dashboard.tsx,
src/client/src/pages/simple-dashboard.tsx).

Numbers are embedded as rationals (ℚ); the JavaScript float values appearing in
the source (0.01, 0.05, 0.0001, 20.0, 0.25, 0.75, 0.8, 0.15) are exact decimal
literals, written here as the corresponding rationals.  The filesystem state the
CostMonitor touches is modelled explicitly: the cost-tracking file and the
MAINTENANCE_MODE.json artifact.  `fs.readFile` / JSON-parse failure is modelled
by the cost file being `none`; `fs.readdir` failure by the directory listing
being `none`.  Console output is modelled as a list of `LogEntry` values emitted
by each operation.
-/

namespace VolumeBot

/-- CostData record persisted in `cost_tracking.json` (costMonitor.ts lines 9-15). -/
structure CostData where
  date : String
  estimatedCost : ℚ
  sessionsCount : ℕ
  transactionsCount : ℕ
  lastReset : String
deriving DecidableEq

/-- The maintenance-lock artifact written to MAINTENANCE_MODE.json
(costMonitor.ts lines 138-146). -/
structure MaintenanceMode where
  maintenanceMode : Bool
  reason : String
  enabledAt : String
  message : String
  allowNewSessions : Bool
  pauseExistingSessions : Bool
  costLimitExceeded : Bool
deriving DecidableEq

/-- The alert record logged by `logCostAlert` (costMonitor.ts lines 157-162). -/
structure CostAlert where
  timestamp : String
  event : String
  limit : ℚ
  action : String
deriving DecidableEq

/-- Console output of the CostMonitor, one constructor per console call site in
costMonitor.ts: the day-reset log (line 67), the current-estimate log (line 73),
the limit-exceeded error (line 77), the 80%-warning (line 80), the
emergency-shutdown error (line 135), the resume note (line 150), the cost alert
(line 164) and the catch-all monitoring error (line 84). -/
inductive LogEntry where
  | resetDay (day : String)
  | currentCost (estimate : ℚ)
  | limitExceeded (estimate : ℚ)
  | warning80 (estimate : ℚ)
  | shutdownBegin
  | resumeNote
  | costAlert (a : CostAlert)
  | monitoringError
deriving DecidableEq

/-- The persisted state the CostMonitor reads and writes: the cost-tracking file
and the maintenance-mode artifact.  `none` for the cost file models a missing or
unparseable file (the `catch` in `loadCostData`). -/
structure Fs where
  costFile : Option CostData
  maintenanceFile : Option MaintenanceMode
deriving DecidableEq

/-- Ambient inputs of one CostMonitor call: the current UTC date string
(`new Date().toISOString().split('T')[0]`), the current instant
(`new Date().toISOString()`), the hours elapsed since local midnight
(`getHoursRunningToday`), and the result of `fs.readdir('./')`
(`none` = readdir failure, absorbed by `.catch(() => [])`). -/
structure Env where
  today : String
  nowIso : String
  hoursRunning : ℚ
  dirListing : Option (List String)

/-- config.maxDailyCost (costMonitor.ts line 24): the $20 daily limit. -/
def maxDailyCost : ℚ := 20

/-- Default CostData built by the `catch` branch of `loadCostData`
(costMonitor.ts lines 173-179). -/
def defaultCostData (env : Env) : CostData :=
  { date := env.today, estimatedCost := 0, sessionsCount := 0
    transactionsCount := 0, lastReset := env.nowIso }

/-- loadCostData (costMonitor.ts lines 167-181): read and parse the cost file;
on any failure silently return the default record.  No console output. -/
def loadCostData (env : Env) (fs : Fs) : CostData :=
  match fs.costFile with
  | some d => d
  | none => defaultCostData env

/-- saveCostData (costMonitor.ts lines 183-185): overwrite the cost file. -/
def saveCostData (d : CostData) (fs : Fs) : Fs :=
  { fs with costFile := some d }

/-- getActiveSessions (costMonitor.ts lines 121-132): count directory entries
that start with "active_" and end with ".json"; a readdir failure becomes the
empty listing (and hence count 0) with no console output. -/
def getActiveSessions (env : Env) : ℕ :=
  ((env.dirListing.getD []).filter
    (fun f => f.startsWith "active_" && f.endsWith ".json")).length

/-- The linear cost model of `estimateCurrentCosts` (costMonitor.ts lines
96-104): base $0.01/hour, $0.05/hour per active session, $0.0001 per
transaction. -/
def estimateTotal (env : Env) (cd : CostData) : ℚ :=
  env.hoursRunning * (1/100)
    + (getActiveSessions env : ℚ) * env.hoursRunning * (5/100)
    + (cd.transactionsCount : ℚ) * (1/10000)

/-- estimateCurrentCosts (costMonitor.ts lines 88-112): compute the estimate,
update the record's estimatedCost and sessionsCount, persist it, and return the
estimate (together with the updated record and filesystem). -/
def estimateCurrentCosts (env : Env) (cd : CostData) (fs : Fs) :
    ℚ × CostData × Fs :=
  let total := estimateTotal env cd
  let cd1 : CostData :=
    { cd with estimatedCost := total, sessionsCount := getActiveSessions env }
  (total, cd1, saveCostData cd1 fs)

/-- The maintenance-mode object written by `emergencyShutdown`
(costMonitor.ts lines 138-146). -/
def emergencyLock (env : Env) : MaintenanceMode :=
  { maintenanceMode := true
    reason := "Emergency shutdown - daily cost limit of $20 exceeded"
    enabledAt := env.nowIso
    message := "System temporarily paused due to cost limits"
    allowNewSessions := false
    pauseExistingSessions := true
    costLimitExceeded := true }

/-- The alert record of `logCostAlert` (costMonitor.ts lines 157-162). -/
def costAlertFor (env : Env) : CostAlert :=
  { timestamp := env.nowIso, event := "COST_LIMIT_EXCEEDED"
    limit := maxDailyCost, action := "EMERGENCY_SHUTDOWN" }

/-- emergencyShutdown (costMonitor.ts lines 134-154): write the maintenance
artifact, then log the shutdown, the resume note and the cost alert. -/
def emergencyShutdown (env : Env) (fs : Fs) : Fs × List LogEntry :=
  ({ fs with maintenanceFile := some (emergencyLock env) },
   [LogEntry.shutdownBegin, LogEntry.resumeNote,
    LogEntry.costAlert (costAlertFor env)])

/-- The record written by the new-day branch of `checkCosts`
(costMonitor.ts lines 60-66): every accumulator field zeroed, date set to
today, lastReset set to the current instant. -/
def resetRecord (env : Env) : CostData :=
  { date := env.today, estimatedCost := 0, sessionsCount := 0
    transactionsCount := 0, lastReset := env.nowIso }

/-- The day-rollover phase of `checkCosts` (costMonitor.ts lines 56-68): load
the record; if its date is not today, reset it and persist the reset record
before estimation.  Returns the record to estimate with, the filesystem after
the phase, and the console output so far. -/
def rolloverPhase (env : Env) (fs : Fs) : CostData × Fs × List LogEntry :=
  let cd0 := loadCostData env fs
  if cd0.date ≠ env.today then
    (resetRecord env, saveCostData (resetRecord env) fs,
     [LogEntry.resetDay env.today])
  else
    (cd0, fs, [])

/-- The estimate `checkCosts` computes on a given state: `estimateCurrentCosts`
applied to the record produced by the rollover phase. -/
def checkCostsEstimate (env : Env) (fs : Fs) : ℚ :=
  estimateTotal env (rolloverPhase env fs).1

/-- checkCosts (costMonitor.ts lines 54-86): rollover phase, then estimation
(which persists the refreshed record), then the threshold checks: at or above
the ceiling run `emergencyShutdown`; at or above 80% of the ceiling only warn. -/
def checkCosts (env : Env) (fs : Fs) : Fs × List LogEntry :=
  let p := rolloverPhase env fs
  let r := estimateCurrentCosts env p.1 p.2.1
  let logs := p.2.2 ++ [LogEntry.currentCost r.1]
  if maxDailyCost ≤ r.1 then
    let s := emergencyShutdown env r.2.2
    (s.1, logs ++ [LogEntry.limitExceeded r.1] ++ s.2)
  else if maxDailyCost * (8/10) ≤ r.1 then
    (r.2.2, logs ++ [LogEntry.warning80 r.1])
  else
    (r.2.2, logs)

/-- The record getStatus / estimateCurrentCosts persists: the loaded record
with estimatedCost refreshed and sessionsCount set to the live count. -/
def refreshedRecord (env : Env) (cd : CostData) : CostData :=
  { cd with estimatedCost := estimateTotal env cd
            sessionsCount := getActiveSessions env }

/-- Return value of getStatus (costMonitor.ts lines 195-204). -/
structure StatusResult where
  withinLimits : Bool
  currentCost : ℚ
  limit : ℚ
deriving DecidableEq

/-- getStatus (costMonitor.ts lines 195-204): load the record, run
`estimateCurrentCosts` on it (which persists the refreshed record), and return
withinLimits, currentCost and the configured limit. -/
def getStatus (env : Env) (fs : Fs) : StatusResult × Fs :=
  let cd := loadCostData env fs
  let r := estimateCurrentCosts env cd fs
  ({ withinLimits := decide (r.1 < maxDailyCost)
     currentCost := r.1, limit := maxDailyCost }, r.2.2)

/-- recordTransaction (costMonitor.ts lines 188-192): load the record,
increment transactionsCount, persist. -/
def recordTransaction (env : Env) (fs : Fs) : Fs :=
  let cd := loadCostData env fs
  saveCostData { cd with transactionsCount := cd.transactionsCount + 1 } fs

/-!
Dashboard model (src/client/src/pages/professional-dashboard.tsx).  The
WebSocket `bot_status` handler (lines 150-230) parses delimited status strings;
the fund-session handler (lines 322-329) validates the funding amount; the
session cards (lines 596-624) display the 75%/25% fund split.  JavaScript
number parsing is modelled over canonical decimal numerals: `none` plays the
role of NaN (so every comparison against it is false, as in JS).
-/

/-- Model of JavaScript `String.prototype.includes`: pat occurs as a contiguous
substring of s. -/
def containsTag (s pat : String) : Bool :=
  (List.range (s.length + 1)).any
    (fun i => pat.toList.isPrefixOf (s.toList.drop i))

/-- Accumulator loop for `splitChar`: walk the characters, cutting at each
separator; the accumulated field is kept reversed. -/
def splitCharAux (sep : Char) : List Char → List Char → List String
  | [], acc => [String.mk acc.reverse]
  | c :: cs, acc =>
    if c = sep then String.mk acc.reverse :: splitCharAux sep cs []
    else splitCharAux sep cs (c :: acc)

/-- Model of JavaScript `String.prototype.split` with a one-character
separator, as used by `status.split('|')` in the dashboard handler. -/
def splitChar (sep : Char) (s : String) : List String :=
  splitCharAux sep s.toList []

/-- Value of a decimal digit character, none for a non-digit. -/
def digitVal (c : Char) : Option ℕ :=
  if '0' ≤ c ∧ c ≤ '9' then some (c.toNat - '0'.toNat) else none

/-- Accumulate the value of a digit string; none on any non-digit. -/
def parseNatCore : List Char → ℕ → Option ℕ
  | [], acc => some acc
  | c :: cs, acc =>
    match digitVal c with
    | some d => parseNatCore cs (acc * 10 + d)
    | none => none

/-- Model of JavaScript `parseInt` restricted to all-digit numerals; inputs on
which parseInt yields NaN map to none. -/
def parseNat (s : String) : Option ℕ :=
  match s.toList with
  | [] => none
  | l => parseNatCore l 0

/-- Model of JavaScript `parseFloat` restricted to canonical decimal numerals
(digits with at most one dot); inputs on which parseFloat yields NaN map to
none, which propagates NaN semantics through every comparison. -/
def parseDecimal (s : String) : Option ℚ :=
  match splitChar '.' s with
  | [w] => (parseNat w).map (fun n => (n : ℚ))
  | [w, f] =>
    match parseNat w, parseNat f with
    | some wn, some fn => some ((wn : ℚ) + (fn : ℚ) / (10 : ℚ) ^ f.length)
    | _, _ => none
  | _ => none

/-- Model of the JavaScript `>` comparison against a possibly-NaN left operand:
NaN compares false. -/
def jsGT (a : Option ℚ) (b : ℚ) : Bool :=
  match a with
  | some x => decide (b < x)
  | none => false

/-- The liveStats React state (professional-dashboard.tsx line 40), with
Option playing NaN for the parsed numeric fields. -/
structure LiveStats where
  transactions : Option ℕ
  volume : Option ℚ
  status : String
  balance : Option ℚ
  fundingDetected : Bool
deriving DecidableEq

/-- A recent-trade entry as built in the TRADE_EXECUTED branch
(professional-dashboard.tsx lines 204-210); the timestamp and solscan URL are
presentation-only and omitted. -/
structure Trade where
  tradeType : String
  amount : Option ℚ
  signature : String
deriving DecidableEq

/-- The React state touched by the bot_status WebSocket handler. -/
structure DashState where
  liveStats : LiveStats
  recentTrades : List Trade
  liveTransactionCount : Option ℕ
  detectedFundingAmount : Option ℚ
  tradingBalance : Option ℚ
  tradingActive : Bool
deriving DecidableEq

/-- The bot_status status-string dispatcher (professional-dashboard.tsx lines
154-229): an if/else-if chain testing `status.includes(tag + bar)` in source
order, each branch splitting the string on the bar and reading its fields
positionally.  Toast, console and UI-opening side effects are not part of the
modelled state. -/
def handleStatusMessage (status : String) (st : DashState) : DashState :=
  let fields := splitChar '|' status
  if containsTag status "FUNDING_DETECTED|" then
    { st with
      detectedFundingAmount := parseDecimal (fields.getD 1 "")
      liveStats := { st.liveStats with fundingDetected := true, status := "funded" } }
  else if containsTag status "FUNDING_PROCESSED|" then
    { st with
      tradingBalance := parseDecimal (fields.getD 2 "")
      liveStats := { st.liveStats with
        status := "processing", balance := parseDecimal (fields.getD 2 "") } }
  else if containsTag status "TRADING_STARTED|" then
    { st with
      tradingActive := true
      liveStats := { st.liveStats with
        status := "trading", balance := parseDecimal (fields.getD 1 "") } }
  else if containsTag status "OPEN_UI_PAGES|" then
    st
  else if containsTag status "TRADE_EXECUTED|" then
    { st with
      recentTrades :=
        ⟨fields.getD 1 "", parseDecimal (fields.getD 2 ""), fields.getD 3 ""⟩
          :: st.recentTrades.take 4
      liveTransactionCount := parseNat (fields.getD 4 "")
      liveStats := { st.liveStats with
        transactions := parseNat (fields.getD 4 "")
        volume := parseDecimal (fields.getD 5 "")
        balance := parseDecimal (fields.getD 6 "")
        status :=
          if jsGT (parseDecimal (fields.getD 6 "")) (1/10000) then "trading"
          else "completed" } }
  else
    st

/-- The dashboard's initial React state (professional-dashboard.tsx lines
40-48): liveStats waiting with zeroed counters, no trades, no funding. -/
def initialDashState : DashState :=
  ⟨⟨some 0, some 0, "waiting", some 0, false⟩, [], some 0, some 0, some 0, false⟩

/-- The fixed revenue fraction of the fund-splitting policy. -/
def REVENUE_FRACTION : ℚ := 25/100

/-- Trading allocation displayed for the session
(professional-dashboard.tsx line 602: detectedFundingAmount times 0.75). -/
def displayedTrading (f : ℚ) : ℚ := f * (75/100)

/-- Revenue share displayed for the session
(professional-dashboard.tsx line 621: detectedFundingAmount times 0.25). -/
def displayedRevenue (f : ℚ) : ℚ := f * (25/100)

/-- Outcome of the fund-session click: the POST body amount if a funding
request is issued, and whether the destructive validation toast fired. -/
structure FundAction where
  request : Option ℚ
  validationToast : Bool
deriving DecidableEq

/-- handleFundSession (professional-dashboard.tsx lines 322-329) for a
non-empty funding input whose parseFloat value is `amount`: below the minimum
it shows the validation toast and returns without mutating; otherwise it issues
the funding request with the parsed amount. -/
def handleFundSession (amount : ℚ) (minAmount : ℚ) : FundAction :=
  if amount < minAmount then
    { request := none, validationToast := true }
  else
    { request := some amount, validationToast := false }

/- Basic frame lemmas. -/

theorem saveCostData_maintenance (d : CostData) (fs : Fs) :
    (saveCostData d fs).maintenanceFile = fs.maintenanceFile := rfl

theorem rolloverPhase_maintenance (env : Env) (fs : Fs) :
    (rolloverPhase env fs).2.1.maintenanceFile = fs.maintenanceFile := by
  simp only [rolloverPhase]
  split <;> rfl

theorem estimateCurrentCosts_fst (env : Env) (cd : CostData) (fs : Fs) :
    (estimateCurrentCosts env cd fs).1 = estimateTotal env cd := rfl

theorem estimateCurrentCosts_fs (env : Env) (cd : CostData) (fs : Fs) :
    (estimateCurrentCosts env cd fs).2.2
      = saveCostData (refreshedRecord env cd) fs := rfl

theorem rolloverPhase_logs (env : Env) (fs : Fs) :
    (rolloverPhase env fs).2.2 = [LogEntry.resetDay env.today] ∨
    (rolloverPhase env fs).2.2 = [] := by
  simp only [rolloverPhase]
  split
  · exact Or.inl rfl
  · exact Or.inr rfl

theorem checkCosts_no_monitoringError (env : Env) (fs : Fs) :
    LogEntry.monitoringError ∉ (checkCosts env fs).2 := by
  simp only [checkCosts]
  rcases rolloverPhase_logs env fs with hl | hl <;>
    split <;> (try split) <;> simp [hl, emergencyShutdown]

theorem saveCostData_mk (d : CostData) (fs : Fs) :
    saveCostData d fs = Fs.mk (some d) fs.maintenanceFile := rfl

theorem checkCosts_load_congr (env : Env) (f1 f2 : Fs)
    (hload : loadCostData env f1 = loadCostData env f2)
    (hm : f1.maintenanceFile = f2.maintenanceFile) :
    checkCosts env f1 = checkCosts env f2 := by
  by_cases hd : (loadCostData env f1).date = env.today
  · have hd2 : (loadCostData env f2).date = env.today := hload ▸ hd
    simp only [checkCosts, rolloverPhase]
    rw [if_neg (not_not_intro hd), if_neg (not_not_intro hd2)]
    simp [saveCostData_mk, estimateCurrentCosts, hload, hm]
  · have hd2 : ¬ (loadCostData env f2).date = env.today := hload ▸ hd
    simp only [checkCosts, rolloverPhase]
    rw [if_pos hd, if_pos hd2]
    simp [saveCostData_mk, estimateCurrentCosts, hload, hm]

/-- C1: on every cost check, if the freshly computed estimate is at or above
the $20 daily ceiling, checkCosts writes the MaintenanceLock artifact with
allowNewSessions = false and pauseExistingSessions = true and records the cost
alert; if the estimate is at least 80% of the ceiling but strictly below it,
checkCosts leaves the maintenance artifact untouched, logs only the warning,
and records no alert. -/
theorem c1_cost_ceiling (env : Env) (fs : Fs) :
    (maxDailyCost ≤ checkCostsEstimate env fs →
      (checkCosts env fs).1.maintenanceFile = some (emergencyLock env) ∧
      (emergencyLock env).allowNewSessions = false ∧
      (emergencyLock env).pauseExistingSessions = true ∧
      LogEntry.costAlert (costAlertFor env) ∈ (checkCosts env fs).2) ∧
    (maxDailyCost * (8/10) ≤ checkCostsEstimate env fs ∧
        checkCostsEstimate env fs < maxDailyCost →
      (checkCosts env fs).1.maintenanceFile = fs.maintenanceFile ∧
      LogEntry.warning80 (checkCostsEstimate env fs) ∈ (checkCosts env fs).2 ∧
      ∀ a, LogEntry.costAlert a ∉ (checkCosts env fs).2) := by
  have hE : (estimateCurrentCosts env (rolloverPhase env fs).1
      (rolloverPhase env fs).2.1).1 = checkCostsEstimate env fs := rfl
  constructor
  · intro h
    refine ⟨?_, rfl, rfl, ?_⟩
    · simp only [checkCosts, hE]
      rw [if_pos h]
      rfl
    · simp only [checkCosts, hE]
      rw [if_pos h]
      simp [emergencyShutdown]
  · rintro ⟨h1, h2⟩
    have hn : ¬ maxDailyCost ≤ checkCostsEstimate env fs := not_le.mpr h2
    refine ⟨?_, ?_, ?_⟩
    · simp only [checkCosts, hE]
      rw [if_neg hn, if_pos h1]
      rw [estimateCurrentCosts_fs, saveCostData_maintenance,
        rolloverPhase_maintenance]
    · simp only [checkCosts, hE]
      rw [if_neg hn, if_pos h1]
      simp
    · intro a
      simp only [checkCosts, hE]
      rw [if_neg hn, if_pos h1]
      rcases rolloverPhase_logs env fs with hl | hl <;> simp [hl]

/-- Witness for C1 at a concrete state: two thousand hours-of-day units make
the estimate exactly $20, which trips the emergency shutdown. -/
theorem c1_cost_ceiling_witness :
    maxDailyCost ≤ checkCostsEstimate ⟨"D", "T", 2000, some []⟩
        ⟨some ⟨"D", 0, 0, 0, "R"⟩, none⟩ ∧
    (checkCosts ⟨"D", "T", 2000, some []⟩
        ⟨some ⟨"D", 0, 0, 0, "R"⟩, none⟩).1.maintenanceFile
      = some (emergencyLock ⟨"D", "T", 2000, some []⟩) := by
  have he : checkCostsEstimate ⟨"D", "T", 2000, some []⟩
      ⟨some ⟨"D", 0, 0, 0, "R"⟩, none⟩ = 20 := by
    norm_num [checkCostsEstimate, rolloverPhase, loadCostData, estimateTotal,
      getActiveSessions]
  have h : maxDailyCost ≤ checkCostsEstimate ⟨"D", "T", 2000, some []⟩
      ⟨some ⟨"D", 0, 0, 0, "R"⟩, none⟩ := by
    rw [he]
    exact le_rfl
  exact ⟨h, ((c1_cost_ceiling ⟨"D", "T", 2000, some []⟩
      ⟨some ⟨"D", 0, 0, 0, "R"⟩, none⟩).1 h).1⟩

/-- C2 counterexample: getStatus is not a pure read — on a stored record whose
persisted estimate is stale, the cost-tracking file differs after the call
(estimateCurrentCosts persists the refreshed record). -/
theorem c2_getStatus_not_pure_counterexample :
    (getStatus ⟨"2024-01-02", "t", 1, some []⟩
        ⟨some ⟨"2024-01-02", 0, 0, 0, "r"⟩, none⟩).2.costFile
      ≠ (Fs.mk (some ⟨"2024-01-02", 0, 0, 0, "r"⟩) none).costFile := by
  have h1 : (getStatus ⟨"2024-01-02", "t", 1, some []⟩
      ⟨some ⟨"2024-01-02", 0, 0, 0, "r"⟩, none⟩).2.costFile
      = some (refreshedRecord ⟨"2024-01-02", "t", 1, some []⟩
          ⟨"2024-01-02", 0, 0, 0, "r"⟩) := rfl
  rw [h1]
  intro hc
  have h3 := congrArg (fun o => (o.getD ⟨"", 0, 0, 0, ""⟩).estimatedCost) hc
  simp [refreshedRecord, estimateTotal, getActiveSessions] at h3

/-- C2 amended: getStatus returns the status triple but performs a write: it
persists the loaded record with estimatedCost refreshed to the new estimate and
sessionsCount set to the live active-session count; only the cost-tracking
file changes — the maintenance artifact is untouched. -/
theorem c2_getStatus_writes_refreshed (env : Env) (fs : Fs) :
    (getStatus env fs).2
      = saveCostData (refreshedRecord env (loadCostData env fs)) fs ∧
    (getStatus env fs).2.maintenanceFile = fs.maintenanceFile :=
  ⟨rfl, rfl⟩

/-- C3: whenever the stored record's date differs from the current UTC date,
the rollover phase of checkCosts resets the accumulator before estimation:
estimatedCost, sessionsCount and transactionsCount are zeroed, date becomes
the current day, lastReset the current instant, the reset record is persisted,
and the estimate is then computed from the reset record. -/
theorem c3_day_rollover (env : Env) (fs : Fs)
    (h : (loadCostData env fs).date ≠ env.today) :
    (rolloverPhase env fs).1 = resetRecord env ∧
    (rolloverPhase env fs).2.1.costFile = some (resetRecord env) ∧
    (resetRecord env).estimatedCost = 0 ∧
    (resetRecord env).sessionsCount = 0 ∧
    (resetRecord env).transactionsCount = 0 ∧
    (resetRecord env).date = env.today ∧
    (resetRecord env).lastReset = env.nowIso ∧
    checkCostsEstimate env fs = estimateTotal env (resetRecord env) := by
  have h2 : rolloverPhase env fs
      = (resetRecord env, saveCostData (resetRecord env) fs,
         [LogEntry.resetDay env.today]) := by
    simp only [rolloverPhase]
    rw [if_pos h]
  refine ⟨by rw [h2], by rw [h2]; rfl, rfl, rfl, rfl, rfl, rfl, ?_⟩
  simp only [checkCostsEstimate]
  rw [h2]

/-- Witness for C3: a record dated 2024-01-01 checked on 2024-01-02 is reset. -/
theorem c3_day_rollover_witness :
    (loadCostData ⟨"2024-01-02", "now", 1, some []⟩
        ⟨some ⟨"2024-01-01", 5, 1, 7, "r"⟩, none⟩).date ≠ "2024-01-02" ∧
    (rolloverPhase ⟨"2024-01-02", "now", 1, some []⟩
        ⟨some ⟨"2024-01-01", 5, 1, 7, "r"⟩, none⟩).1
      = resetRecord ⟨"2024-01-02", "now", 1, some []⟩ :=
  ⟨by decide, (c3_day_rollover ⟨"2024-01-02", "now", 1, some []⟩
      ⟨some ⟨"2024-01-01", 5, 1, 7, "r"⟩, none⟩ (by decide)).1⟩

/-- C7: getStatus returns withinLimits = true exactly when the freshly computed
currentCost is strictly below the configured daily limit, and returns the
configured $20 limit unchanged as the limit field. -/
theorem c7_getStatus_fields (env : Env) (fs : Fs) :
    ((getStatus env fs).1.withinLimits = true ↔
      (getStatus env fs).1.currentCost < maxDailyCost) ∧
    (getStatus env fs).1.limit = 20 := by
  constructor
  · simp [getStatus]
  · rfl

/-- C9 counterexample: with the cost-tracking file unreadable, loadCostData
silently substitutes the default record — the check behaves exactly as if the
default file had been present and its log contains no monitoring-error entry,
so the read failure is not logged. -/
theorem c9_swallowed_counterexample :
    loadCostData ⟨"d", "t", 0, some []⟩ ⟨none, none⟩
        = defaultCostData ⟨"d", "t", 0, some []⟩ ∧
    checkCosts ⟨"d", "t", 0, some []⟩ ⟨none, none⟩
        = checkCosts ⟨"d", "t", 0, some []⟩
            ⟨some (defaultCostData ⟨"d", "t", 0, some []⟩), none⟩ ∧
    LogEntry.monitoringError ∉
      (checkCosts ⟨"d", "t", 0, some []⟩ ⟨none, none⟩).2 :=
  ⟨rfl,
   checkCosts_load_congr ⟨"d", "t", 0, some []⟩ ⟨none, none⟩
     ⟨some (defaultCostData ⟨"d", "t", 0, some []⟩), none⟩ rfl rfl,
   checkCosts_no_monitoringError ⟨"d", "t", 0, some []⟩ ⟨none, none⟩⟩

/-- C9 amended: checkCosts itself catches and logs errors and never throws, but
the inner failure paths are silently defaulted rather than logged: a missing or
unreadable cost-tracking file is replaced by the default record with no log, a
cost check on such a state is indistinguishable from one on the default file,
and a directory-enumeration failure yields an active-session count of 0 with no
log. -/
theorem c9_silent_defaults (env : Env) (fs : Fs) (h : fs.costFile = none) :
    loadCostData env fs = defaultCostData env ∧
    checkCosts env fs
      = checkCosts env { fs with costFile := some (defaultCostData env) } ∧
    LogEntry.monitoringError ∉ (checkCosts env fs).2 ∧
    ∀ e : Env, e.dirListing = none → getActiveSessions e = 0 := by
  obtain ⟨cf, mf⟩ := fs
  cases h
  refine ⟨rfl, ?_, checkCosts_no_monitoringError _ _, ?_⟩
  · exact checkCosts_load_congr env ⟨none, mf⟩
      ⟨some (defaultCostData env), mf⟩ rfl rfl
  · intro e he
    simp [getActiveSessions, he]

/-- Witness for C9 amended at a concrete unreadable-file state. -/
theorem c9_silent_defaults_witness :
    (Fs.mk none none).costFile = none ∧
    loadCostData ⟨"d2", "t2", 2, none⟩ (Fs.mk none none)
      = defaultCostData ⟨"d2", "t2", 2, none⟩ :=
  ⟨rfl, (c9_silent_defaults ⟨"d2", "t2", 2, none⟩ (Fs.mk none none) rfl).1⟩

/-- C10: recordTransaction increments the persisted record's transactionsCount
by exactly one and leaves every other field of the record, and the maintenance
artifact, unchanged. -/
theorem c10_recordTransaction_frame (env : Env) (fs : Fs) (r : CostData)
    (h : fs.costFile = some r) :
    recordTransaction env fs
      = { fs with
          costFile := some ({ r with transactionsCount := r.transactionsCount + 1 }) } := by
  simp [recordTransaction, loadCostData, saveCostData, h]

/-- Witness for C10: a record with 7 transactions moves to 8, all other fields
and the maintenance artifact intact. -/
theorem c10_recordTransaction_witness :
    (Fs.mk (some ⟨"d", 2, 3, 7, "r"⟩) none).costFile = some ⟨"d", 2, 3, 7, "r"⟩ ∧
    recordTransaction ⟨"d", "t", 1, some []⟩
        (Fs.mk (some ⟨"d", 2, 3, 7, "r"⟩) none)
      = { Fs.mk (some ⟨"d", 2, 3, 7, "r"⟩) none with
          costFile := some ({ CostData.mk "d" 2 3 7 "r" with transactionsCount := 7 + 1 }) } :=
  ⟨rfl, c10_recordTransaction_frame ⟨"d", "t", 1, some []⟩
      (Fs.mk (some ⟨"d", 2, 3, 7, "r"⟩) none) ⟨"d", 2, 3, 7, "r"⟩ rfl⟩

/-- C4: for every detected funding amount, the displayed revenue share equals
REVENUE_FRACTION (0.25) times the funding, the displayed trading allocation
equals (1 - REVENUE_FRACTION) = 0.75 times the funding, and the two sum
exactly to the funding amount. -/
theorem c4_fund_split (f : ℚ) :
    displayedRevenue f = REVENUE_FRACTION * f ∧
    displayedTrading f = (1 - REVENUE_FRACTION) * f ∧
    displayedRevenue f + displayedTrading f = f := by
  refine ⟨?_, ?_, ?_⟩
  · unfold displayedRevenue REVENUE_FRACTION
    ring
  · unfold displayedTrading REVENUE_FRACTION
    ring
  · unfold displayedRevenue displayedTrading
    ring

/-- C5: for every well-formed TRADE_EXECUTED status string — the trade tag
present, none of the earlier tags of the dispatch chain present, and the
bar-split yielding the tag followed by the six positional fields, each of which
parses — the handler updates the live statistics to transactions = totalTrades,
volume = totalVolume, balance = remainingBalance, and records the trade with
its type, amount and signature at the head of the recent-trades list. -/
theorem c5_trade_executed (st : DashState) (t a sig n v b status : String)
    (_hshape : status = "TRADE_EXECUTED|" ++ t ++ "|" ++ a ++ "|" ++ sig ++ "|"
        ++ n ++ "|" ++ v ++ "|" ++ b)
    (hsplit : splitChar '|' status = ["TRADE_EXECUTED", t, a, sig, n, v, b])
    (h1 : containsTag status "FUNDING_DETECTED|" = false)
    (h2 : containsTag status "FUNDING_PROCESSED|" = false)
    (h3 : containsTag status "TRADING_STARTED|" = false)
    (h4 : containsTag status "OPEN_UI_PAGES|" = false)
    (h5 : containsTag status "TRADE_EXECUTED|" = true)
    (nn : ℕ) (aa vv bb : ℚ)
    (hn : parseNat n = some nn) (ha : parseDecimal a = some aa)
    (hv : parseDecimal v = some vv) (hb : parseDecimal b = some bb) :
    (handleStatusMessage status st).liveStats.transactions = some nn ∧
    (handleStatusMessage status st).liveStats.volume = some vv ∧
    (handleStatusMessage status st).liveStats.balance = some bb ∧
    (handleStatusMessage status st).liveTransactionCount = some nn ∧
    (handleStatusMessage status st).recentTrades
      = ⟨t, some aa, sig⟩ :: st.recentTrades.take 4 := by
  simp [handleStatusMessage, hsplit, h1, h2, h3, h4, h5, hn, ha, hv, hb]

/-- Witness for C5 on the concrete status string
TRADE_EXECUTED with fields BUY, 2, sig1, 3, 15, 1 from the initial state. -/
theorem c5_trade_executed_witness :
    containsTag "TRADE_EXECUTED|BUY|2|sig1|3|15|1" "TRADE_EXECUTED|" = true ∧
    (handleStatusMessage "TRADE_EXECUTED|BUY|2|sig1|3|15|1"
        initialDashState).liveStats.transactions = some 3 :=
  ⟨rfl, (c5_trade_executed initialDashState "BUY" "2" "sig1" "3" "15" "1"
    "TRADE_EXECUTED|BUY|2|sig1|3|15|1" rfl rfl rfl rfl rfl rfl rfl
    3 ((2 : ℕ) : ℚ) ((15 : ℕ) : ℚ) ((1 : ℕ) : ℚ) rfl rfl rfl rfl).1⟩

/-- C6 counterexample: at a remaining balance of exactly 0.0001 — the epsilon
itself, hence not strictly below it — the handler still displays completed, so
completed is not equivalent to the balance having fallen strictly below the
threshold. -/
theorem c6_threshold_counterexample :
    (handleStatusMessage "TRADE_EXECUTED|BUY|2|sig1|3|15|0.0001"
        initialDashState).liveStats.status = "completed" ∧
    (handleStatusMessage "TRADE_EXECUTED|BUY|2|sig1|3|15|0.0001"
        initialDashState).liveStats.balance = some (1/10000 : ℚ) ∧
    ¬ ((1/10000 : ℚ) < 1/10000) := by
  have hbv : parseDecimal "0.0001" = some (1/10000 : ℚ) := by
    have hb : parseDecimal "0.0001"
        = some (((0 : ℕ) : ℚ) + ((1 : ℕ) : ℚ) / (10 : ℚ) ^ 4) := rfl
    rw [hb]
    norm_num
  have hsplit : splitChar '|' "TRADE_EXECUTED|BUY|2|sig1|3|15|0.0001"
      = ["TRADE_EXECUTED", "BUY", "2", "sig1", "3", "15", "0.0001"] := rfl
  have h1 : containsTag "TRADE_EXECUTED|BUY|2|sig1|3|15|0.0001"
      "FUNDING_DETECTED|" = false := rfl
  have h2 : containsTag "TRADE_EXECUTED|BUY|2|sig1|3|15|0.0001"
      "FUNDING_PROCESSED|" = false := rfl
  have h3 : containsTag "TRADE_EXECUTED|BUY|2|sig1|3|15|0.0001"
      "TRADING_STARTED|" = false := rfl
  have h4 : containsTag "TRADE_EXECUTED|BUY|2|sig1|3|15|0.0001"
      "OPEN_UI_PAGES|" = false := rfl
  have h5 : containsTag "TRADE_EXECUTED|BUY|2|sig1|3|15|0.0001"
      "TRADE_EXECUTED|" = true := rfl
  refine ⟨?_, ?_, by norm_num⟩
  · simp [handleStatusMessage, hsplit, h1, h2, h3, h4, h5, hbv, jsGT]
  · simp [handleStatusMessage, hsplit, h1, h2, h3, h4, h5, hbv]

/-- C6 amended: after a well-formed TRADE_EXECUTED event, the displayed state
is completed exactly when the parsed remaining balance is at or below the
0.0001 SOL epsilon, and trading exactly when it is strictly above it. -/
theorem c6_completion_threshold (st : DashState)
    (t a sig n v b status : String)
    (hsplit : splitChar '|' status = ["TRADE_EXECUTED", t, a, sig, n, v, b])
    (h1 : containsTag status "FUNDING_DETECTED|" = false)
    (h2 : containsTag status "FUNDING_PROCESSED|" = false)
    (h3 : containsTag status "TRADING_STARTED|" = false)
    (h4 : containsTag status "OPEN_UI_PAGES|" = false)
    (h5 : containsTag status "TRADE_EXECUTED|" = true)
    (bb : ℚ) (hb : parseDecimal b = some bb) :
    ((handleStatusMessage status st).liveStats.status = "completed" ↔
      bb ≤ 1/10000) ∧
    ((handleStatusMessage status st).liveStats.status = "trading" ↔
      1/10000 < bb) := by
  have hred : (handleStatusMessage status st).liveStats.status
      = (if jsGT (some bb) (1/10000) then "trading" else "completed") := by
    simp [handleStatusMessage, hsplit, h1, h2, h3, h4, h5, hb]
  rw [hred]
  by_cases hlt : (1/10000 : ℚ) < bb
  · simp [jsGT, hlt, not_le.mpr hlt]
  · simp [jsGT, hlt, not_lt.mp hlt]

/-- Witness for C6 amended: a remaining balance of 1 SOL keeps the session
displayed as trading. -/
theorem c6_completion_threshold_witness :
    containsTag "TRADE_EXECUTED|BUY|2|sig1|3|15|1" "TRADE_EXECUTED|" = true ∧
    ((handleStatusMessage "TRADE_EXECUTED|BUY|2|sig1|3|15|1"
        initialDashState).liveStats.status = "trading" ↔
      (1/10000 : ℚ) < ((1 : ℕ) : ℚ)) :=
  ⟨rfl, (c6_completion_threshold initialDashState "BUY" "2" "sig1" "3" "15" "1"
    "TRADE_EXECUTED|BUY|2|sig1|3|15|1" rfl rfl rfl rfl rfl rfl
    ((1 : ℕ) : ℚ) rfl).2⟩

/-- C8: a fund-session request whose amount is below the minimum shows the
validation toast and issues no funding request; an amount at or above the
minimum issues the funding request with that amount and no validation toast. -/
theorem c8_fund_validation (q m : ℚ) :
    (q < m → handleFundSession q m = ⟨none, true⟩) ∧
    (m ≤ q → handleFundSession q m = ⟨some q, false⟩) := by
  constructor
  · intro h
    simp [handleFundSession, h]
  · intro h
    simp [handleFundSession, not_lt.mpr h]

/-- Witness for C8: 0.1 SOL is rejected against the 0.15 minimum with no
request; 0.2 SOL proceeds to the funding call. -/
theorem c8_fund_validation_witness :
    ((1/10 : ℚ) < 15/100 ∧
      handleFundSession (1/10) (15/100) = ⟨none, true⟩) ∧
    ((15/100 : ℚ) ≤ 2/10 ∧
      handleFundSession (2/10) (15/100) = ⟨some (2/10), false⟩) :=
  ⟨⟨by norm_num, (c8_fund_validation (1/10) (15/100)).1 (by norm_num)⟩,
   ⟨by norm_num, (c8_fund_validation (2/10) (15/100)).2 (by norm_num)⟩⟩

end VolumeBot
